import Mathlib

/-!
Shallow embedding of `application/src/main.cpp` of the object-size-detector
repository: the defect-classification state machine of `frameRunner`
(lines 233-267), the shared-state update `updateInfo` (lines 137-150),
the single-slot frame queue `addImage` / `nextImageAvailable`
(lines 105-124), and the telemetry payload built by `publishMQTTMessage`
(lines 163-174).  C++ `int` values are modelled as `Int`; the four
monotone counters (`frame_defect_count`, `frame_ok_count`, `total_parts`,
`total_defects`) are only ever incremented or reset to `0` in the source,
so they are modelled as `Nat`.
-/

namespace ObjectSizeDetector

/-- `cv::Rect`: the bounding region of the detected object.  Only carried
around; no claim inspects its fields. -/
structure Rect where
  x : Int
  y : Int
  width : Int
  height : Int
deriving Repr, DecidableEq

/-- The default-constructed `cv::Rect()` (all fields zero), the value of
`max_rect` in `frameRunner` when no contour qualifies. -/
def rectZero : Rect := ⟨0, 0, 0, 0⟩

/-- `struct AssemblyInfo` (main.cpp lines 84-91): the per-frame verdict
record handed from `frameRunner` to `updateInfo`.  The C++ field `show`
is a Lean keyword and is rendered `show_defect`. -/
structure AssemblyInfo where
  inc_total : Bool
  defect : Bool
  area : Int
  show_defect : Bool
  rect : Rect
deriving Repr, DecidableEq

/-- The classifier state of `frameRunner`, held in the globals
`prev_seen`, `prev_defect`, `frame_defect_count`, `frame_ok_count`
(main.cpp lines 78-81). -/
structure ClassifierState where
  prev_seen : Bool
  prev_defect : Bool
  frame_defect_count : Nat
  frame_ok_count : Nat
deriving Repr, DecidableEq

/-- Initial classifier state: the globals are initialised to
`false / false / 0 / 0` at process start. -/
def initState : ClassifierState := ⟨false, false, 0, 0⟩

/-- The per-frame pass/fail test of main.cpp line 235:
`part_area > max_area || part_area < min_area` (the local variable
`frame_defect` of `frameRunner`). -/
def frame_defect (min_area max_area part_area : Int) : Bool :=
  part_area > max_area || part_area < min_area

/-- One tick of the defect classifier: main.cpp lines 233-275, from the
`if (part_area != 0)` test to the construction of the `AssemblyInfo`
record.  `part_area` is the area of the largest qualifying object
(`0` when none was detected, i.e. the part is absent) and `max_rect`
its bounding rectangle.  Returns the emitted `AssemblyInfo` and the
updated classifier state. -/
def classify (min_area max_area : Int) (part_area : Int) (max_rect : Rect)
    (s : ClassifierState) : AssemblyInfo × ClassifierState :=
  if part_area ≠ 0 then
    -- lines 235-241: increment ok or defect counts
    let frame_defect : Bool := frame_defect min_area max_area part_area
    let fdc1 : Nat := if frame_defect then s.frame_defect_count + 1 else s.frame_defect_count
    let foc1 : Nat := if frame_defect then s.frame_ok_count else s.frame_ok_count + 1
    if !s.prev_seen then
      -- lines 244-246: if the part wasn't seen before it's a new part
      (⟨true, false, part_area, s.prev_defect, max_rect⟩,
       ⟨true, s.prev_defect, fdc1, foc1⟩)
    else
      -- lines 248-251: a sustained ok run clears the defect streak
      let fdc2 : Nat := if !frame_defect && decide (foc1 > 10) then 0 else fdc1
      -- lines 252-259: a sustained defect streak confirms the defect once
      let fires : Bool := frame_defect && decide (fdc2 > 10)
      let defect : Bool := fires && !s.prev_defect
      let pd2 : Bool := if fires && !s.prev_defect then true else s.prev_defect
      let foc2 : Nat := if fires then 0 else foc1
      (⟨false, defect, part_area, pd2, max_rect⟩,
       ⟨true, pd2, fdc2, foc2⟩)
  else
    -- lines 261-266: empty belt, reset values
    (⟨false, false, part_area, false, max_rect⟩,
     ⟨false, false, 0, 0⟩)

/-- The shared state guarded by mutex `m2`: `currentInfo` and the running
totals `total_parts` / `total_defects` (main.cpp lines 76-77 and 94). -/
structure SharedState where
  currentInfo : AssemblyInfo
  total_parts : Nat
  total_defects : Nat
deriving Repr, DecidableEq

/-- Initial shared state: `AssemblyInfo currentInfo = {false};`
zero-initialises every field, and both totals start at `0`. -/
def initShared : SharedState := ⟨⟨false, false, 0, false, rectZero⟩, 0, 0⟩

/-- `updateInfo` (main.cpp lines 137-150): copies `defect`, `show`,
`area`, `rect` into `currentInfo` (note: not `inc_total`), increments
`total_parts` when `info.inc_total` and `total_defects` when
`info.defect`. -/
def updateInfo (info : AssemblyInfo) (g : SharedState) : SharedState :=
  { currentInfo :=
      { inc_total := g.currentInfo.inc_total
        defect := info.defect
        show_defect := info.show_defect
        area := info.area
        rect := info.rect }
    total_parts := if info.inc_total then g.total_parts + 1 else g.total_parts
    total_defects := if info.defect then g.total_defects + 1 else g.total_defects }

/-- `getCurrentInfo` (main.cpp lines 127-134): a consistent copy of
`currentInfo` taken under the lock. -/
def getCurrentInfo (g : SharedState) : AssemblyInfo := g.currentInfo

/-- Run the classifier alone over a list of measured areas (each area with
the default bounding rectangle), collecting the emitted verdicts and the
final classifier state. -/
def runClassifier (min_area max_area : Int) (s : ClassifierState) :
    List Int → List AssemblyInfo × ClassifierState
  | [] => ([], s)
  | a :: as =>
    let r := classify min_area max_area a rectZero s
    let rest := runClassifier min_area max_area r.2 as
    (r.1 :: rest.1, rest.2)

/-- Run the worker-loop body over a list of measured areas: each tick
classifies the measurement and applies the verdict to the shared state
via `updateInfo`, exactly as `frameRunner` does (main.cpp line 276). -/
def runSystem (min_area max_area : Int) (s : ClassifierState) (g : SharedState) :
    List Int → List AssemblyInfo × ClassifierState × SharedState
  | [] => ([], s, g)
  | a :: as =>
    let r := classify min_area max_area a rectZero s
    let rest := runSystem min_area max_area r.2 (updateInfo r.1 g) as
    (r.1 :: rest.1, rest.2)

/-- Whether a measured area is a present-and-failing frame: the part is
detected (`part_area != 0`) and its area lies outside
`[min_area, max_area]` (main.cpp line 235). -/
def failingFrame (min_area max_area a : Int) : Bool :=
  decide (a ≠ 0) && frame_defect min_area max_area a

/-- Number of present-and-failing frames in a sequence of measured areas. -/
def failCount (min_area max_area : Int) : List Int → Nat
  | [] => 0
  | a :: as => (if failingFrame min_area max_area a then 1 else 0) + failCount min_area max_area as

/-- Auxiliary for `maxFailRun`: `cur` is the length of the current run of
present-and-failing frames, `best` the longest run seen so far. -/
def maxFailRunAux (min_area max_area : Int) (cur best : Nat) : List Int → Nat
  | [] => max cur best
  | a :: as =>
    if failingFrame min_area max_area a then
      maxFailRunAux min_area max_area (cur + 1) best as
    else
      maxFailRunAux min_area max_area 0 (max cur best) as

/-- Length of the longest run of consecutive present-and-failing frames
in a sequence of measured areas. -/
def maxFailRun (min_area max_area : Int) (ms : List Int) : Nat :=
  maxFailRunAux min_area max_area 0 0 ms

/-- Inductive invariant tying the classifier state to the shared
counters: the defect total never exceeds the part total, strictly so
while a not-yet-flagged part is on the belt, and a part that has not
been seen cannot already be flagged. -/
def CounterInv (cs : ClassifierState) (g : SharedState) : Prop :=
  g.total_defects ≤ g.total_parts
  ∧ (cs.prev_seen = true → cs.prev_defect = false →
      g.total_defects < g.total_parts)
  ∧ (cs.prev_seen = false → cs.prev_defect = false)

/-- The frame queue `nextImage` (main.cpp line 62).  `addImage`
(lines 118-124) pushes the image only when the queue is empty, so the
queue holds at most one frame; it is modelled as `Option α`. -/
def addImage {α : Type} (nextImage : Option α) (img : α) : Option α :=
  match nextImage with
  | none => some img
  | some x => some x

/-- `nextImageAvailable` (main.cpp lines 105-115): returns the front
frame and pops it when the queue is non-empty, otherwise returns the
default-constructed (empty) `Mat`, modelled as `none`.  The result is
the returned frame paired with the queue afterwards. -/
def nextImageAvailable {α : Type} (nextImage : Option α) : Option α × Option α :=
  match nextImage with
  | none => (none, none)
  | some x => (some x, none)

/-- Modelled from the spec: the `FrameSlot.tryPut` contract of spec
section 4.1, which (unlike the source's `void addImage`) also returns a
boolean telling whether the frame was stored.  Returned as the boolean
paired with the slot afterwards. -/
def tryPut {α : Type} (slot : Option α) (frame : α) : Bool × Option α :=
  match slot with
  | none => (true, some frame)
  | some x => (false, some x)

/-- The frame whose pixels one `frameRunner` iteration actually
processes (main.cpp lines 189-202): the dequeued `next` only gates
processing through the emptiness check, while the extraction pipeline
reads the shared global `frame` (`cvtColor(frame, img, ...)`, line 202).
Returns `none` when the dequeued frame is empty (nothing processed). -/
def frameRunnerInput {α : Type} (nextImage : Option α) (globalFrame : α) : Option α :=
  let next := (nextImageAvailable nextImage).1
  match next with
  | none => none
  | some _ => some globalFrame

/-- C++ `operator<<` on `bool` with default stream flags (`boolalpha`
not set) prints `1` for `true` and `0` for `false`. -/
def ostreamBool (b : Bool) : String := if b then "1" else "0"

/-- The JSON payload built by `publishMQTTMessage` (main.cpp lines
165-167): `s << "{\"Defect\": \"" << info.defect << "\"}"`. -/
def publishPayload (info : AssemblyInfo) : String :=
  "\x7b\"Defect\": \"" ++ ostreamBool info.defect ++ "\"\x7d"

example :
    ((runClassifier 20000 30000 initState (List.replicate 13 35000)).1.map
      (fun v => v.defect))
    = List.replicate 10 false ++ [true] ++ List.replicate 2 false := by decide

example :
    (runSystem 20000 30000 initState initShared (List.replicate 13 35000)).2.2.total_defects
    = 1 := by decide

example :
    maxFailRun 20000 30000
      (List.replicate 6 35000 ++ [25000] ++ List.replicate 6 35000) = 6 := by decide

example :
    ((runClassifier 20000 30000 initState
        (List.replicate 6 35000 ++ [25000] ++ List.replicate 6 35000)).1.any
      (fun v => v.defect)) = true := by decide

/-! Closed-form characterisations of one `classify` tick, used by the
claim proofs below. -/

theorem classify_absent (mn mx : Int) (r : Rect) (s : ClassifierState) :
    classify mn mx 0 r s = (⟨false, false, 0, false, r⟩, ⟨false, false, 0, 0⟩) := by
  simp [classify]

theorem classify_prev_seen (mn mx a : Int) (r : Rect) (s : ClassifierState) :
    (classify mn mx a r s).2.prev_seen = decide (a ≠ 0) := by
  by_cases h0 : a = 0
  · subst h0; simp [classify]
  · by_cases hseen : s.prev_seen <;> simp [classify, h0, hseen]

theorem classify_inc_total (mn mx a : Int) (r : Rect) (s : ClassifierState) :
    (classify mn mx a r s).1.inc_total = (decide (a ≠ 0) && !s.prev_seen) := by
  by_cases h0 : a = 0
  · subst h0; simp [classify]
  · by_cases hseen : s.prev_seen <;> simp [classify, h0, hseen]

theorem classify_defect (mn mx a : Int) (r : Rect) (s : ClassifierState) :
    (classify mn mx a r s).1.defect =
      (decide (a ≠ 0) && s.prev_seen && frame_defect mn mx a
        && decide (s.frame_defect_count + 1 > 10) && !s.prev_defect) := by
  by_cases h0 : a = 0
  · subst h0; simp [classify]
  · by_cases hseen : s.prev_seen
    · by_cases hfd : frame_defect mn mx a = true <;>
        simp [classify, h0, hseen, hfd]
    · simp [classify, h0, hseen]

theorem classify_prev_defect (mn mx a : Int) (r : Rect) (s : ClassifierState) :
    (classify mn mx a r s).2.prev_defect =
      (decide (a ≠ 0) &&
        (s.prev_defect ||
          (s.prev_seen && frame_defect mn mx a
            && decide (s.frame_defect_count + 1 > 10)))) := by
  by_cases h0 : a = 0
  · subst h0; simp [classify]
  · by_cases hseen : s.prev_seen
    · by_cases hfd : frame_defect mn mx a = true
      · by_cases hpd : s.prev_defect <;>
          simp [classify, h0, hseen, hfd, hpd]
      · simp [classify, h0, hseen, hfd]
    · simp [classify, h0, hseen]

theorem classify_show_defect (mn mx a : Int) (r : Rect) (s : ClassifierState) :
    (classify mn mx a r s).1.show_defect = (classify mn mx a r s).2.prev_defect := by
  by_cases h0 : a = 0
  · subst h0; simp [classify]
  · by_cases hseen : s.prev_seen <;> simp [classify, h0, hseen]

theorem classify_fdc (mn mx a : Int) (r : Rect) (s : ClassifierState) :
    (classify mn mx a r s).2.frame_defect_count =
      (if a = 0 then 0
       else if frame_defect mn mx a then s.frame_defect_count + 1
       else if s.prev_seen && decide (s.frame_ok_count + 1 > 10) then 0
       else s.frame_defect_count) := by
  by_cases h0 : a = 0
  · subst h0; simp [classify]
  · by_cases hseen : s.prev_seen
    · by_cases hfd : frame_defect mn mx a = true <;>
        simp [classify, h0, hseen, hfd]
    · by_cases hfd : frame_defect mn mx a = true <;>
        simp [classify, h0, hseen, hfd]

theorem classify_foc (mn mx a : Int) (r : Rect) (s : ClassifierState) :
    (classify mn mx a r s).2.frame_ok_count =
      (if a = 0 then 0
       else if frame_defect mn mx a then
         (if s.prev_seen && decide (s.frame_defect_count + 1 > 10) then 0
          else s.frame_ok_count)
       else s.frame_ok_count + 1) := by
  by_cases h0 : a = 0
  · subst h0; simp [classify]
  · by_cases hseen : s.prev_seen
    · by_cases hfd : frame_defect mn mx a = true <;>
        simp [classify, h0, hseen, hfd]
    · by_cases hfd : frame_defect mn mx a = true <;>
        simp [classify, h0, hseen, hfd]

theorem classify_area (mn mx a : Int) (r : Rect) (s : ClassifierState) :
    (classify mn mx a r s).1.area = a := by
  by_cases h0 : a = 0
  · subst h0; simp [classify]
  · by_cases hseen : s.prev_seen <;> simp [classify, h0, hseen]

/-- Conditions forced by a fired defect event: the frame is present and
failing, the defect streak was already at the threshold, the part had
been seen and had not yet been flagged. -/
theorem classify_defect_forces (mn mx a : Int) (r : Rect) (s : ClassifierState)
    (h : (classify mn mx a r s).1.defect = true) :
    a ≠ 0 ∧ failingFrame mn mx a = true ∧ 10 < s.frame_defect_count + 1
      ∧ s.prev_seen = true ∧ s.prev_defect = false := by
  rw [classify_defect] at h
  simp only [Bool.and_eq_true, Bool.not_eq_true', decide_eq_true_eq] at h
  obtain ⟨⟨⟨⟨h0, hseen⟩, hfd⟩, hcnt⟩, hpd⟩ := h
  exact ⟨h0, by simp [failingFrame, h0, hfd], hcnt, hseen, hpd⟩

/-- C10: for every configuration, measurement and classifier state, the
emitted verdict never has `inc_total` and `defect` (isDefectEvent) both
true: the tick that registers a newly arrived part never simultaneously
reports a defect event. -/
theorem claim_C10_theorem (mn mx a : Int) (r : Rect) (s : ClassifierState) :
    ((classify mn mx a r s).1.inc_total && (classify mn mx a r s).1.defect) = false := by
  rw [classify_inc_total, classify_defect]
  cases hseen : s.prev_seen <;> simp

/-- C9: a `part_area = 0` measurement (no object detected, i.e.
`present = false`) resets the whole classifier state regardless of its
prior value and emits the all-false verdict with area 0; from the reset
state, any present measurement is treated as a brand-new part and emits
`inc_total = true`. -/
theorem claim_C9_theorem (mn mx : Int) (r r2 : Rect) (s : ClassifierState)
    (a : Int) (ha : a ≠ 0) :
    classify mn mx 0 r s = (⟨false, false, 0, false, r⟩, ⟨false, false, 0, 0⟩)
    ∧ (classify mn mx a r2 ⟨false, false, 0, 0⟩).1.inc_total = true := by
  refine ⟨classify_absent mn mx r s, ?_⟩
  rw [classify_inc_total]
  simp [ha]

/-- Witness for C9 at a concrete saturated prior state and the present
area 25000. -/
theorem claim_C9_witness :
    classify 20000 30000 0 rectZero ⟨true, true, 5, 7⟩
      = (⟨false, false, 0, false, rectZero⟩, ⟨false, false, 0, 0⟩)
    ∧ (classify 20000 30000 25000 rectZero ⟨false, false, 0, 0⟩).1.inc_total = true :=
  claim_C9_theorem 20000 30000 rectZero rectZero ⟨true, true, 5, 7⟩ 25000 (by decide)

/-- C8: the single-slot frame queue.  `addImage` on an occupied slot
leaves the stored frame unchanged (the new frame is discarded, not
queued, not overwritten), on an empty slot it stores the frame;
`nextImageAvailable` on an empty slot returns the empty frame.  The
spec's boolean-returning `tryPut` contract is realised by `addImage`:
their slot effects agree on every input, and `tryPut` returns `true`
exactly on an empty slot. -/
theorem claim_C8_theorem {α : Type} (img x : α) :
    addImage (none : Option α) img = some img
    ∧ addImage (some x) img = some x
    ∧ nextImageAvailable (none : Option α) = (none, none)
    ∧ tryPut (none : Option α) img = (true, some img)
    ∧ tryPut (some x) img = (false, some x)
    ∧ addImage (none : Option α) img = (tryPut (none : Option α) img).2
    ∧ addImage (some x) img = (tryPut (some x) img).2 :=
  ⟨rfl, rfl, rfl, rfl, rfl, rfl, rfl⟩

/-- C5: the frame actually processed by a `frameRunner` iteration is
the shared global `frame`, not the frame dequeued from the slot: with
frame 1 stored in the slot and frame 2 in the global, the extraction
pipeline runs on frame 2 (and nothing is processed when the slot is
empty). -/
theorem claim_C5_theorem :
    frameRunnerInput (some 1) (2 : Nat) = some 2
    ∧ (frameRunnerInput (some 1) (2 : Nat) == some 1) = false
    ∧ frameRunnerInput (none : Option Nat) 2 = none := by decide

/-- C4 counterexample: with `lastDefect = true` at publish time the
payload built by `publishMQTTMessage` is `{"Defect": "1"}` (C++ streams
a `bool` as `1`/`0` when `boolalpha` is not set), which is neither
`{"Defect": "true"}` nor `{"Defect": "false"}` as the claim requires. -/
theorem claim_C4_counterexample :
    publishPayload (getCurrentInfo ⟨⟨false, true, 25000, true, rectZero⟩, 1, 1⟩)
      = "\x7b\"Defect\": \"1\"\x7d"
    ∧ (publishPayload (getCurrentInfo ⟨⟨false, true, 25000, true, rectZero⟩, 1, 1⟩)
        == "\x7b\"Defect\": \"true\"\x7d") = false
    ∧ (publishPayload (getCurrentInfo ⟨⟨false, true, 25000, true, rectZero⟩, 1, 1⟩)
        == "\x7b\"Defect\": \"false\"\x7d") = false := by decide

/-- C4 amended: every payload the publisher sends is a JSON object whose
field `Defect` is the string `"1"` or the string `"0"` (the C++ ostream
rendering of a `bool`), equal to the `defect` flag of the shared-state
snapshot taken at publish time. -/
theorem claim_C4_theorem (g : SharedState) :
    (publishPayload (getCurrentInfo g) = "\x7b\"Defect\": \"1\"\x7d"
      ∨ publishPayload (getCurrentInfo g) = "\x7b\"Defect\": \"0\"\x7d")
    ∧ ((getCurrentInfo g).defect = true →
        publishPayload (getCurrentInfo g) = "\x7b\"Defect\": \"1\"\x7d")
    ∧ ((getCurrentInfo g).defect = false →
        publishPayload (getCurrentInfo g) = "\x7b\"Defect\": \"0\"\x7d") := by
  cases h : (getCurrentInfo g).defect <;>
    simp [publishPayload, ostreamBool, h]

/-- Witness for C4 at a concrete shared state with the defect flag set. -/
theorem claim_C4_witness :
    publishPayload (getCurrentInfo ⟨⟨false, true, 25000, true, rectZero⟩, 1, 1⟩)
      = "\x7b\"Defect\": \"1\"\x7d" :=
  (claim_C4_theorem ⟨⟨false, true, 25000, true, rectZero⟩, 1, 1⟩).2.1 rfl

/-- C1 counterexample: under bounds [20000, 30000], on the 13-frame
sequence of present area-35000 measurements from the initial state, the
defect event fires on the 11th frame, so the 12th frame's verdict has
`defect = false` — the claim places the single firing on the 12th
frame. -/
theorem claim_C1_counterexample :
    (((runSystem 20000 30000 initState initShared (List.replicate 13 35000)).1.map
        (fun v => v.defect)).get? 10) = some true
    ∧ (((runSystem 20000 30000 initState initShared (List.replicate 13 35000)).1.map
        (fun v => v.defect)).get? 11) = some false := by decide

/-- C1 amended: on a part-start frame of area 35000 followed by 12 more
present frames of area 35000 under bounds [20000, 30000], starting from
the initial state, the classifier emits `isDefectEvent = true` exactly
once, on the 11th frame of the sequence (the start frame already
increments the defect streak, so 1 start + 10 further failing frames
push it past the `> 10` threshold), and after applying all verdicts
`totalDefects = 1`. -/
theorem claim_C1_theorem :
    ((runSystem 20000 30000 initState initShared (List.replicate 13 35000)).1.map
        (fun v => v.defect))
      = List.replicate 10 false ++ [true] ++ List.replicate 2 false
    ∧ (runSystem 20000 30000 initState initShared
        (List.replicate 13 35000)).2.2.total_defects = 1 := by decide

/-- C3 counterexample: from the initial state, three passing frames of
area 25000 (bounds [20000, 30000]) leave the state at
`prev_seen = true, ok-count 3, defect-count 0`; the next failing frame
(area 35000) is a present tick on a continuing part, increments the
defect count to 1, yet leaves the ok count at 3 — neither reset to 0
nor incremented — contradicting the claim that exactly one counter is
reset and the other incremented on every non-transition tick. -/
theorem claim_C3_counterexample :
    (runClassifier 20000 30000 initState [25000, 25000, 25000]).2
      = ⟨true, false, 0, 3⟩
    ∧ (classify 20000 30000 35000 rectZero ⟨true, false, 0, 3⟩).2
      = ⟨true, false, 1, 3⟩
    ∧ ((classify 20000 30000 35000 rectZero ⟨true, false, 0, 3⟩).2.frame_ok_count
        == 0) = false
    ∧ ((classify 20000 30000 35000 rectZero ⟨true, false, 0, 3⟩).2.frame_ok_count
        == 3 + 1) = false := by decide

/-- C3 amended: on every classifier tick the two streak counters are
never both incremented; an absence tick forces both to 0; a present
failing tick increments the defect count and leaves the ok count either
unchanged or (threshold reset) 0; a present passing tick increments the
ok count and leaves the defect count either unchanged or (sustained-ok
reset) 0. -/
theorem claim_C3_theorem (mn mx a : Int) (r : Rect) (s : ClassifierState) :
    ((classify mn mx a r s).2.frame_defect_count = s.frame_defect_count + 1
        ∧ (classify mn mx a r s).2.frame_ok_count = s.frame_ok_count + 1 → False)
    ∧ (a = 0 →
        (classify mn mx a r s).2.frame_defect_count = 0
        ∧ (classify mn mx a r s).2.frame_ok_count = 0)
    ∧ (a ≠ 0 → frame_defect mn mx a = true →
        (classify mn mx a r s).2.frame_defect_count = s.frame_defect_count + 1
        ∧ ((classify mn mx a r s).2.frame_ok_count = s.frame_ok_count
            ∨ (classify mn mx a r s).2.frame_ok_count = 0))
    ∧ (a ≠ 0 → frame_defect mn mx a = false →
        (classify mn mx a r s).2.frame_ok_count = s.frame_ok_count + 1
        ∧ ((classify mn mx a r s).2.frame_defect_count = s.frame_defect_count
            ∨ (classify mn mx a r s).2.frame_defect_count = 0)) := by
  rw [classify_fdc, classify_foc]
  split_ifs <;> refine ⟨?_, ?_, ?_, ?_⟩ <;> intros <;> first | omega | simp_all

/-- Witness for C3 on the failing tick of the counterexample run: the
defect count is incremented, the ok count left unchanged. -/
theorem claim_C3_witness :
    (classify 20000 30000 35000 rectZero ⟨true, false, 0, 3⟩).2.frame_defect_count = 0 + 1
    ∧ ((classify 20000 30000 35000 rectZero ⟨true, false, 0, 3⟩).2.frame_ok_count = 3
        ∨ (classify 20000 30000 35000 rectZero ⟨true, false, 0, 3⟩).2.frame_ok_count = 0) :=
  (claim_C3_theorem 20000 30000 35000 rectZero ⟨true, false, 0, 3⟩).2.2.1
    (by decide) (by decide)

/-- The defect streak counter is bounded by its starting value plus the
number of present-and-failing frames consumed, so a run containing too
few failing frames can never reach the firing threshold. -/
theorem run_no_defect_of_failCount (mn mx : Int) :
    ∀ (ms : List Int) (s : ClassifierState),
      s.frame_defect_count + failCount mn mx ms ≤ 10 →
      ((runClassifier mn mx s ms).1.all (fun v => !v.defect)) = true := by
  intro ms
  induction ms with
  | nil => intro s _; simp [runClassifier]
  | cons a as ih =>
    intro s h
    simp only [runClassifier, List.all_cons, Bool.and_eq_true]
    constructor
    · simp only [Bool.not_eq_true']
      by_cases hd : (classify mn mx a rectZero s).1.defect = true
      · obtain ⟨-, hfail, hgt, -, -⟩ := classify_defect_forces mn mx a rectZero s hd
        simp only [failCount, if_pos hfail] at h
        omega
      · simpa using hd
    · apply ih
      rw [classify_fdc]
      by_cases h0 : a = 0
      · have hnf : failingFrame mn mx a = false := by simp [failingFrame, h0]
        simp only [failCount, hnf, if_false, Bool.false_eq_true] at h
        simp only [h0, if_pos]
        omega
      · by_cases hfd : frame_defect mn mx a = true
        · have hfail : failingFrame mn mx a = true := by simp [failingFrame, h0, hfd]
          simp only [failCount, hfail, if_true] at h
          simp only [h0, hfd, if_neg, if_pos, if_true]
          split_ifs <;> omega
        · have hnf : failingFrame mn mx a = false := by simp [failingFrame, hfd]
          simp only [failCount, hnf, if_false, Bool.false_eq_true] at h
          split_ifs <;> omega

/-- C2 counterexample: an all-present sequence whose longest run of
consecutive failing frames is 6 (six failing frames of area 35000, one
passing frame of area 25000, six more failing frames, bounds
[20000, 30000]) nevertheless produces a defect event: a single passing
frame does not reset the defect streak counter, so the two failing runs
accumulate past the threshold. -/
theorem claim_C2_counterexample :
    ((List.replicate 6 (35000 : Int) ++ [25000] ++ List.replicate 6 35000).all
        (fun a => decide (a ≠ 0))) = true
    ∧ maxFailRun 20000 30000
        (List.replicate 6 35000 ++ [25000] ++ List.replicate 6 35000) = 6
    ∧ ((runClassifier 20000 30000 initState
          (List.replicate 6 35000 ++ [25000] ++ List.replicate 6 35000)).1.any
        (fun v => v.defect)) = true := by decide

/-- C2 amended: for every configuration and every sequence of
measurements containing at most 10 present-and-failing frames in total,
the classifier run from the initial state never emits
`isDefectEvent = true`; in particular a part whose very first frame
fails raises no defect event until more than 10 failing frames (not
necessarily consecutive) have accumulated. -/
theorem claim_C2_theorem (mn mx : Int) (ms : List Int)
    (h : failCount mn mx ms ≤ 10) :
    ((runClassifier mn mx initState ms).1.all (fun v => !v.defect)) = true :=
  run_no_defect_of_failCount mn mx ms initState (by simpa [initState] using h)

/-- Witness for C2 on a short sequence with two failing frames. -/
theorem claim_C2_witness :
    ((runClassifier 20000 30000 initState [35000, 25000, 35000]).1.all
      (fun v => !v.defect)) = true :=
  claim_C2_theorem 20000 30000 [35000, 25000, 35000] (by decide)

/-- A present tick on an already-flagged part (`prev_defect = true`)
emits no defect event and keeps the part flagged. -/
theorem classify_flagged_present (mn mx a : Int) (r : Rect) (s : ClassifierState)
    (hpd : s.prev_defect = true) (h0 : a ≠ 0) :
    (classify mn mx a r s).1.defect = false
    ∧ (classify mn mx a r s).2.prev_defect = true := by
  constructor
  · rw [classify_defect]
    simp [hpd]
  · rw [classify_prev_defect]
    simp [hpd, h0]

/-- While the part on the belt is already flagged and every measurement
keeps it present, no further defect event is ever emitted. -/
theorem run_no_defect_of_flagged (mn mx : Int) :
    ∀ (ms : List Int) (s : ClassifierState),
      s.prev_defect = true →
      (ms.all (fun b => decide (b ≠ 0))) = true →
      ((runClassifier mn mx s ms).1.all (fun v => !v.defect)) = true := by
  intro ms
  induction ms with
  | nil => intro s _ _; simp [runClassifier]
  | cons a as ih =>
    intro s hpd hpres
    simp only [List.all_cons, Bool.and_eq_true, decide_eq_true_eq] at hpres
    obtain ⟨h0, hrest⟩ := hpres
    obtain ⟨hd, hpd'⟩ := classify_flagged_present mn mx a rectZero s hpd h0
    simp only [runClassifier, List.all_cons, Bool.and_eq_true]
    refine ⟨by simp [hd], ih _ hpd' ?_⟩
    simpa using hrest

/-- C6: once the classifier emits `isDefectEvent = true`, then as long
as every subsequent measurement keeps a part present (no `part_area = 0`
gap, i.e. no new part), no later tick ever emits
`isDefectEvent = true` again: a defect is reported at most once per
physical part. -/
theorem claim_C6_theorem (mn mx a : Int) (r : Rect) (s : ClassifierState)
    (ms : List Int)
    (hfire : (classify mn mx a r s).1.defect = true)
    (hpres : (ms.all (fun b => decide (b ≠ (0 : Int)))) = true) :
    ((runClassifier mn mx (classify mn mx a r s).2 ms).1.all
      (fun v => !v.defect)) = true := by
  apply run_no_defect_of_flagged mn mx ms _ _ hpres
  obtain ⟨h0, hfail, hgt, hseen, -⟩ := classify_defect_forces mn mx a r s hfire
  rw [classify_prev_defect]
  have hfd : frame_defect mn mx a = true := by
    simpa [failingFrame, h0] using hfail
  simp [h0, hseen, hfd]
  omega

/-- Witness for C6: a concrete firing tick (streak already at 10, next
frame failing) followed by two present frames with no further event. -/
theorem claim_C6_witness :
    ((runClassifier 20000 30000
        (classify 20000 30000 35000 rectZero ⟨true, false, 10, 0⟩).2
        [35000, 25000]).1.all (fun v => !v.defect)) = true :=
  claim_C6_theorem 20000 30000 35000 rectZero ⟨true, false, 10, 0⟩
    [35000, 25000] (by decide) (by decide)

/-- One worker tick preserves the counter invariant. -/
theorem counterInv_step (mn mx a : Int) (r : Rect) (cs : ClassifierState)
    (g : SharedState) (h : CounterInv cs g) :
    CounterInv (classify mn mx a r cs).2 (updateInfo (classify mn mx a r cs).1 g) := by
  obtain ⟨h1, h2, h3⟩ := h
  by_cases hd : (classify mn mx a r cs).1.defect = true
  · obtain ⟨h0, hfail, hgt, hseen, hpd⟩ := classify_defect_forces mn mx a r cs hd
    have hfd : frame_defect mn mx a = true := by
      simpa [failingFrame, h0] using hfail
    have hinc : (classify mn mx a r cs).1.inc_total = false := by
      rw [classify_inc_total]
      simp [hseen]
    have hpd' : (classify mn mx a r cs).2.prev_defect = true := by
      rw [classify_prev_defect]
      simp [h0, hseen, hfd]
      omega
    have hlt : g.total_defects < g.total_parts := h2 hseen hpd
    refine ⟨?_, ?_, ?_⟩
    · simp only [updateInfo, hd, hinc, if_pos, if_neg, if_true, if_false,
        Bool.false_eq_true]
      omega
    · intro _ hcontra
      rw [hpd'] at hcontra
      exact absurd hcontra (by simp)
    · intro hseen2
      rw [classify_prev_seen] at hseen2
      simp at hseen2
      exact absurd hseen2 h0
  · have hd' : (classify mn mx a r cs).1.defect = false := by
      simpa using hd
    by_cases h0 : a = 0
    · subst h0
      rw [classify_absent] at *
      refine ⟨?_, ?_, ?_⟩
      · simpa [updateInfo] using h1
      · intro hcontra _
        exact absurd hcontra (by simp)
      · intro _; rfl
    · have hseen' : (classify mn mx a r cs).2.prev_seen = true := by
        rw [classify_prev_seen]; simp [h0]
      by_cases hseen : cs.prev_seen = true
      · have hinc : (classify mn mx a r cs).1.inc_total = false := by
          rw [classify_inc_total]; simp [hseen]
        refine ⟨?_, ?_, ?_⟩
        · simpa [updateInfo, hd', hinc] using h1
        · intro _ hpd'
          rw [classify_prev_defect] at hpd'
          simp [h0, hseen] at hpd'
          have := h2 hseen hpd'.1
          simpa [updateInfo, hd', hinc] using this
        · intro hcontra
          rw [hseen'] at hcontra
          exact absurd hcontra (by simp)
      · have hseenf : cs.prev_seen = false := by simpa using hseen
        have hinc : (classify mn mx a r cs).1.inc_total = true := by
          rw [classify_inc_total]; simp [h0, hseenf]
        have hpdf : cs.prev_defect = false := h3 hseenf
        have hpd' : (classify mn mx a r cs).2.prev_defect = false := by
          rw [classify_prev_defect]
          simp [hseenf, hpdf]
        refine ⟨?_, ?_, ?_⟩
        · simp only [updateInfo, hd', hinc, if_true, if_false, Bool.false_eq_true]
          omega
        · intro _ _
          simp only [updateInfo, hd', hinc, if_true, if_false, Bool.false_eq_true]
          omega
        · intro hcontra
          rw [hseen'] at hcontra
          exact absurd hcontra (by simp)

/-- The counter invariant holds after every run of the worker loop. -/
theorem runSystem_counterInv (mn mx : Int) :
    ∀ (ms : List Int) (cs : ClassifierState) (g : SharedState),
      CounterInv cs g →
      CounterInv (runSystem mn mx cs g ms).2.1 (runSystem mn mx cs g ms).2.2 := by
  intro ms
  induction ms with
  | nil => intro cs g h; simpa [runSystem] using h
  | cons a as ih =>
    intro cs g h
    simpa [runSystem] using ih _ _ (counterInv_step mn mx a rectZero cs g h)

/-- C7: starting from the all-zero initial shared state and initial
classifier state, after the worker loop applies the classifier verdicts
of any measurement sequence via `updateInfo`, `total_defects` never
exceeds `total_parts`. -/
theorem claim_C7_theorem (mn mx : Int) (ms : List Int) :
    (runSystem mn mx initState initShared ms).2.2.total_defects
      ≤ (runSystem mn mx initState initShared ms).2.2.total_parts := by
  refine (runSystem_counterInv mn mx ms initState initShared ?_).1
  refine ⟨Nat.le_refl 0, ?_, ?_⟩
  · intro hcontra _
    exact absurd hcontra (by simp [initState])
  · intro _; rfl

end ObjectSizeDetector
